import Mathlib

/-
Verification of the partner-finder leads API
(backend/api/blueprints/leads.py).

The handler builds SQL text per request, executes it against the leads
table, and projects rows to response dictionaries.  We embed the handler
shallowly: JSON values are an inductive type, a database is a list of
rows, each SQL statement is modelled by its effect on that list, and the
Python dict/string operations the handler uses are reproduced as
executable Lean functions.  The pagination parser, the auth guard and
the connection management are external collaborators (per the spec) and
are modelled by their validated outputs.
-/

namespace LeadsApi

/-- A JSON-ish scalar value as it travels through the handler: SQL NULL /
Python None, strings, and integers (for the id column). -/
inductive JVal where
  | null
  | str (s : String)
  | int (n : Int)
deriving DecidableEq, Repr

/-- Python truthiness for the values we model: None is falsy, a string is
truthy iff non-empty, an integer is truthy iff non-zero.  Used by the
`if data_source:` guard in _create_new_lead. -/
def JVal.truthy : JVal → Bool
  | .null => false
  | .str s => s != ""
  | .int n => n != 0

/-- Python str() on the values we model (used by `str(data_source)`). -/
def JVal.pyStr : JVal → String
  | .null => "None"
  | .str s => s
  | .int n => toString n

/-- ASCII lower-casing of one character, as Python str.lower acts on the
ASCII field names and data-source values the API deals in. -/
def pyLowerChar (c : Char) : Char :=
  if 'A' ≤ c ∧ c ≤ 'Z' then Char.ofNat (c.toNat + 32) else c

/-- Python str.lower (ASCII fragment), written over the character list so
it evaluates by kernel reduction. -/
def pyLower (s : String) : String := String.mk (s.data.map pyLowerChar)

/-- Split a character list on a separator, Python str.split semantics:
the empty string yields one empty group, n separators yield n+1 groups. -/
def splitChars (sep : Char) : List Char → List (List Char)
  | [] => [[]]
  | c :: rest =>
    match splitChars sep rest with
    | [] => [[]]
    | g :: gs => if c = sep then [] :: g :: gs else (c :: g) :: gs

/-- Python str.split(sep) for a one-character separator. -/
def pySplit (s : String) (sep : Char) : List String :=
  (splitChars sep s.data).map String.mk

/-- Python str.strip(): remove leading and trailing whitespace. -/
def pyStrip (s : String) : String :=
  String.mk (((s.data.dropWhile Char.isWhitespace).reverse.dropWhile
    Char.isWhitespace).reverse)

/-- The fixed field tuple DEFAULT_LEAD_FIELDS from leads.py: the 23
column names the API exposes. -/
def DEFAULT_LEAD_FIELDS : List String :=
  ["id", "company_name", "company_address", "formation_date",
   "contact_name", "website", "phone", "email", "twitter", "facebook",
   "linkedin", "last_email", "last_google_search", "last_twitter_search",
   "last_facebook_search", "last_linkedin_search", "instagram",
   "mission_statement", "programs", "populations_served", "county",
   "colorado_region", "data_source"]

/-- The VALID_DATA_SOURCES tuple from leads.py. -/
def VALID_DATA_SOURCES : List String :=
  ["socrata", "colorado_nonprofit_association", "user_entry"]

/-- A row of the leads table: the server-generated integer primary key
plus a total assignment of values to the remaining column names (absent
columns read as NULL, matching the nullable schema). -/
structure Row where
  id : Int
  attrs : String → JVal

/-- getattr(row, field): the id column is the integer key, every other
field is read from the column assignment. -/
def rowGet (r : Row) (field : String) : JVal :=
  if field = "id" then JVal.int r.id else r.attrs field

/-- Python dict.get on an association list (first binding wins, as in a
dict whose keys are unique). -/
def lookupJ (d : List (String × JVal)) (k : String) : Option JVal :=
  (d.find? (fun kv => kv.1 == k)).map (fun kv => kv.2)

/-- Key sequence of a Python dict built by iterating `l`: first
occurrence fixes the position, later duplicates are dropped (their value
would overwrite, but every use here assigns equal values per key). -/
def dictKeysAux (seen : List String) : List String → List String
  | [] => []
  | k :: rest =>
    if k ∈ seen then dictKeysAux seen rest
    else k :: dictKeysAux (k :: seen) rest

/-- The dict comprehension pattern of leads.py, e.g.
`lead = (field: getattr(row, field) for field in include)`: one binding
per distinct key, in first-occurrence order. -/
def pyDict (keys : List String) (v : String → JVal) : List (String × JVal) :=
  (dictKeysAux [] keys).map (fun k => (k, v k))

/-- drop_null parsing in _get_all_leads:
request.args.get("drop_null", "false").lower() == "true". -/
def parseDropNull (p : Option String) : Bool :=
  pyLower (p.getD "false") == "true"

/-- include parsing in _get_all_leads: absent means the full fixed field
list, otherwise split on commas and keep field.lower().strip() for each
piece whose field.lower() is a fixed field (unknown pieces silently
dropped). -/
def parseIncludeFields (p : Option String) : List String :=
  match p with
  | none => DEFAULT_LEAD_FIELDS
  | some s =>
    (pySplit s ',').filterMap (fun field =>
      if pyLower field ∈ DEFAULT_LEAD_FIELDS then
        some (pyStrip (pyLower field))
      else none)

/-- Ascending id order, the ORDER BY id of the no-search SELECT
(SQL ORDER BY with no direction is ascending). -/
def idLe (a b : Row) : Prop := a.id ≤ b.id

instance : DecidableRel idLe := fun a b => Int.decLe a.id b.id

instance : IsTotal Row idLe := ⟨fun a b => Int.le_total a.id b.id⟩

instance : IsTrans Row idLe := ⟨fun _ _ _ hab hbc => Int.le_trans hab hbc⟩

/-- The PostgreSQL full-text-search collaborator: tsMatch models
`to_tsvector(company_name) @@ to_tsquery(search)` and tsRank models
`ts_rank(to_tsvector(company_name), search)`, with the rank abstracted
to an integer score (higher = more relevant). -/
structure TextSearch where
  tsMatch : JVal → String → Bool
  tsRank : JVal → String → Int

/-- Ascending rank order: the search SELECT says
`ORDER BY ts_rank(to_tsvector(company_name), ...)` with no direction,
which in SQL is ascending. -/
def rankLe (fts : TextSearch) (q : String) (a b : Row) : Prop :=
  fts.tsRank (rowGet a "company_name") q ≤ fts.tsRank (rowGet b "company_name") q

instance (fts : TextSearch) (q : String) : DecidableRel (rankLe fts q) :=
  fun _ _ => Int.decLe _ _

/-- The no-search SELECT: ORDER BY id LIMIT :limit OFFSET :offset
(OFFSET skips first, then LIMIT caps the row count). -/
def listQueryRows (db : List Row) (limit offs : Nat) : List Row :=
  (((List.insertionSort idLe db).drop offs).take limit)

/-- The search SELECT: rows whose company_name matches the tsquery,
ordered by ts_rank ascending, then OFFSET/LIMIT. -/
def searchQueryRows (fts : TextSearch) (q : String) (db : List Row)
    (limit offs : Nat) : List Row :=
  ((List.insertionSort (rankLe fts q)
      (db.filter (fun r => fts.tsMatch (rowGet r "company_name") q))).drop
    offs).take limit

/-- A GET /leads request after the pagination collaborator has validated
page and perpage; the raw search, include and drop_null query parameters
are carried as received. -/
structure ListRequest where
  page : Nat
  perpage : Nat
  search : Option String
  includeParam : Option String
  dropNullParam : Option String

/-- The 200 body of GET /leads: count, the echoed query, and the lead
dictionaries. -/
structure ListResponse where
  count : Nat
  page : Nat
  perpage : Nat
  leads : List (List (String × JVal))
deriving DecidableEq, Repr

/-- Row projection used per result row in _get_all_leads: the include
dict comprehension followed by the drop_null filter. -/
def leadOf (includeFields : List String) (dropNull : Bool) (r : Row) :
    List (String × JVal) :=
  let lead := pyDict includeFields (rowGet r)
  if dropNull then lead.filter (fun kv => !(kv.2 == JVal.null)) else lead

/-- The rows of the requested page: limit = perpage,
offset = (page - 1) * limit, and the search parameter chooses between
the two SELECT forms. -/
def pageRows (fts : TextSearch) (req : ListRequest) (db : List Row) :
    List Row :=
  match req.search with
  | none => listQueryRows db req.perpage ((req.page - 1) * req.perpage)
  | some s => searchQueryRows fts s db req.perpage ((req.page - 1) * req.perpage)

/-- _get_all_leads on the happy path (pagination already validated by the
collaborator): run the SELECT, project each row through include and
drop_null, and count the rows of this page. -/
def getAllLeads (fts : TextSearch) (req : ListRequest) (db : List Row) :
    ListResponse :=
  let leads := (pageRows fts req db).map
    (leadOf (parseIncludeFields req.includeParam)
      (parseDropNull req.dropNullParam))
  { count := leads.length, page := req.page, perpage := req.perpage,
    leads := leads }

/-- Body filtering in _create_new_lead: keep entries whose key is a fixed
field other than id and whose value is not null. -/
def createBody (json : List (String × JVal)) : List (String × JVal) :=
  json.filter (fun kv =>
    kv.1 != "id" && decide (kv.1 ∈ DEFAULT_LEAD_FIELDS) &&
      !(kv.2 == JVal.null))

/-- Outcome of POST /leads: the 422 invalid-data_source response or a
created lead (full fixed-field projection). -/
inductive CreateResult where
  | invalid (message : String)
  | created (lead : List (String × JVal))
deriving DecidableEq, Repr

/-- Discriminator for the 422 branch of POST /leads. -/
def CreateResult.isInvalid : CreateResult → Bool
  | .invalid _ => true
  | .created _ => false

/-- The full fixed-field projection
(field: getattr(row, field) for field in DEFAULT_LEAD_FIELDS). -/
def projAll (r : Row) : List (String × JVal) :=
  DEFAULT_LEAD_FIELDS.map (fun f => (f, rowGet r f))

/-- The row produced by INSERT INTO leads (...) VALUES (...) RETURNING *:
the server-generated id plus the supplied columns, every unsupplied
column defaulting to NULL. -/
def insertedRow (newId : Int) (body : List (String × JVal)) : Row :=
  { id := newId, attrs := fun f => (lookupJ body f).getD JVal.null }

/-- _create_new_lead: filter the body, validate a truthy data_source on
its lowercased str() form against VALID_DATA_SOURCES (422 on failure,
before any SQL), otherwise insert and return the full projection.
newId models the server-generated primary key. -/
def createNewLead (json : List (String × JVal)) (newId : Int)
    (db : List Row) : CreateResult × List Row :=
  let body := createBody json
  let ds := (lookupJ body "data_source").getD JVal.null
  if ds.truthy && !(decide (pyLower ds.pyStr ∈ VALID_DATA_SOURCES)) then
    (CreateResult.invalid
      ("Invalid value for the \"data_source\" parameter: " ++
        pyLower ds.pyStr), db)
  else
    let row := insertedRow newId body
    (CreateResult.created (projAll row), db ++ [row])

/-- Outcome of GET or DELETE on /leads/(id): 404 carrying params.id and
the message, or the found row's full projection. -/
inductive FetchResult where
  | notFound (id : Int) (message : String)
  | found (lead : List (String × JVal))
deriving DecidableEq, Repr

/-- _get_lead_by_id: SELECT ... WHERE id = :id, .first(), 404 when no
row matches. -/
def getLeadById (lid : Int) (db : List Row) : FetchResult :=
  match db.find? (fun r => r.id == lid) with
  | none => FetchResult.notFound lid "Could not find lead with given id."
  | some r => FetchResult.found (projAll r)

/-- Body filtering in _modify_lead_with_id: keep entries whose key is a
fixed field other than id; null values are kept. -/
def modifyBody (json : List (String × JVal)) : List (String × JVal) :=
  json.filter (fun kv => kv.1 != "id" && decide (kv.1 ∈ DEFAULT_LEAD_FIELDS))

/-- The assignment fragments `field=:field` joined into the SET clause of
the UPDATE statement. -/
def setClauseAssignments (body : List (String × JVal)) : List String :=
  body.map (fun kv => kv.1 ++ "=:" ++ kv.1)

/-- The SET clause text: ",".join of the assignment fragments.  An empty
body yields the empty string, i.e. `UPDATE leads SET WHERE id = :id`. -/
def setClause (body : List (String × JVal)) : String :=
  String.intercalate "," (setClauseAssignments body)

/-- Outcome of PUT /leads/(id): a SQL syntax error (the statement never
executes and the transaction context rolls back), the 404 response
carrying params.id, the echoed body and the message, or the updated
row's full projection. -/
inductive UpdateResult where
  | sqlError
  | notFound (id : Int) (body : List (String × JVal)) (message : String)
  | updated (lead : List (String × JVal))
deriving DecidableEq, Repr

/-- Effect of the SET assignments on one row: supplied columns take the
supplied value, every other column keeps its prior value; id is not
assignable (filtered from the body). -/
def applyUpdate (r : Row) (body : List (String × JVal)) : Row :=
  { id := r.id, attrs := fun f => (lookupJ body f).getD (r.attrs f) }

/-- _modify_lead_with_id: filter the body, build and run
UPDATE leads SET ... WHERE id = :id RETURNING *.  The SQL grammar
requires at least one assignment after SET, so the empty clause the code
builds for an empty body is a syntax error: the statement does not
execute and the transaction rolls back.  Otherwise rows with the given
id are updated, .first() of RETURNING decides between 200 and 404. -/
def modifyLeadWithId (lid : Int) (json : List (String × JVal))
    (db : List Row) : UpdateResult × List Row :=
  let body := modifyBody json
  if setClauseAssignments body = [] then (UpdateResult.sqlError, db)
  else
    match db.find? (fun r => r.id == lid) with
    | none =>
      (UpdateResult.notFound lid json "Could not find lead with given id.",
        db)
    | some r =>
      (UpdateResult.updated (projAll (applyUpdate r body)),
        db.map (fun x => if x.id == lid then applyUpdate x body else x))

/-- _delete_lead_with_id: DELETE FROM leads WHERE id = :id RETURNING *,
404 when no row matched, otherwise the deleted row's projection and the
row removed from the table. -/
def deleteLeadWithId (lid : Int) (db : List Row) :
    FetchResult × List Row :=
  match db.find? (fun r => r.id == lid) with
  | none => (FetchResult.notFound lid "Could not find lead with given id.", db)
  | some r =>
    (FetchResult.found (projAll r), db.filter (fun x => !(x.id == lid)))

/-- A concrete row from explicit column bindings; columns not listed are
NULL. -/
def mkRow (i : Int) (pairs : List (String × JVal)) : Row :=
  { id := i, attrs := fun f => (lookupJ pairs f).getD JVal.null }

/-- A trivial text-search collaborator for requests that never reach the
search branch. -/
def noSearchFts : TextSearch :=
  { tsMatch := fun _ _ => false, tsRank := fun _ _ => 0 }

/-- Membership in the dict key sequence: a key appears iff it occurs in
the iterated list and was not already seen. -/
theorem mem_dictKeysAux (a : String) (l : List String) :
    ∀ seen, a ∈ dictKeysAux seen l ↔ (a ∈ l ∧ a ∉ seen) := by
  induction l with
  | nil => intro seen; simp [dictKeysAux]
  | cons k rest ih =>
    intro seen
    by_cases hk : k ∈ seen
    · rw [dictKeysAux, if_pos hk, ih seen]
      constructor
      · rintro ⟨hmem, hns⟩
        exact ⟨List.mem_cons_of_mem _ hmem, hns⟩
      · rintro ⟨hmem, hns⟩
        rcases List.mem_cons.mp hmem with h | h
        · exact absurd (h ▸ hk) hns
        · exact ⟨h, hns⟩
    · rw [dictKeysAux, if_neg hk, List.mem_cons]
      constructor
      · rintro (h | h)
        · exact ⟨List.mem_cons.mpr (Or.inl h), h ▸ hk⟩
        · obtain ⟨hmem, hns⟩ := (ih (k :: seen)).mp h
          exact ⟨List.mem_cons.mpr (Or.inr hmem),
            fun ha => hns (List.mem_cons.mpr (Or.inr ha))⟩
      · rintro ⟨hmem, hns⟩
        by_cases hak : a = k
        · exact Or.inl hak
        · rcases List.mem_cons.mp hmem with h | h
          · exact absurd h hak
          · exact Or.inr ((ih (k :: seen)).mpr
              ⟨h, fun ha => (List.mem_cons.mp ha).elim hak hns⟩)

/-- dict.get finds the unique binding of a key. -/
theorem lookupJ_eq_some_of_mem {d : List (String × JVal)} {k : String}
    {v : JVal} (hn : (d.map Prod.fst).Nodup) (hm : (k, v) ∈ d) :
    lookupJ d k = some v := by
  induction d with
  | nil => cases hm
  | cons kv rest ih =>
    rw [List.map_cons, List.nodup_cons] at hn
    rcases List.mem_cons.mp hm with h | h
    · rw [← h, lookupJ, List.find?_cons_of_pos _ (by simp)]
      rfl
    · have hk : (kv.1 == k) = false := by
        simp only [beq_eq_false_iff_ne, ne_eq]
        intro he
        exact hn.1 (he ▸ List.mem_map.mpr ⟨(k, v), h, rfl⟩)
      rw [lookupJ, List.find?_cons, hk]
      exact ih hn.2 h

/-- dict.get of an absent key is None. -/
theorem lookupJ_eq_none_of_not_mem {d : List (String × JVal)} {k : String}
    (h : k ∉ d.map Prod.fst) : lookupJ d k = none := by
  rw [lookupJ, List.find?_eq_none.mpr]
  · rfl
  · intro kv hkv
    simp only [beq_iff_eq]
    intro he
    exact h (List.mem_map.mpr ⟨kv, hkv, he⟩)

/-- The keys of a comprehension dict are the deduplicated iterated keys. -/
theorem keys_pyDict (ks : List String) (v : String → JVal) :
    (pyDict ks v).map Prod.fst = dictKeysAux [] ks := by
  rw [pyDict, List.map_map]
  exact List.map_id _

/-- Key membership in a comprehension dict is membership in the iterated
list. -/
theorem mem_keys_pyDict {f : String} (ks : List String) (v : String → JVal) :
    f ∈ (pyDict ks v).map Prod.fst ↔ f ∈ ks := by
  rw [keys_pyDict, mem_dictKeysAux]
  simp

/-- Bindings of a comprehension dict carry the comprehension value. -/
theorem mem_pyDict_iff {kv : String × JVal} (ks : List String)
    (v : String → JVal) :
    kv ∈ pyDict ks v ↔ kv.1 ∈ dictKeysAux [] ks ∧ kv.2 = v kv.1 := by
  rw [pyDict, List.mem_map]
  constructor
  · rintro ⟨k, hk, rfl⟩
    exact ⟨hk, rfl⟩
  · rintro ⟨hk, hv⟩
    exact ⟨kv.1, hk, by rw [← hv]⟩

/-- Fixed field names carry no surrounding whitespace, so the strip in
include parsing is the identity on any piece that passes the allow-list
check. -/
theorem pyStrip_fixed : ∀ fld ∈ DEFAULT_LEAD_FIELDS, pyStrip fld = fld := by
  decide

/-- A field is in the parsed include list iff it is a fixed field and the
lowercase of some comma-separated piece equals it. -/
theorem mem_parseIncludeFields_some {f : String} (s : String) :
    f ∈ parseIncludeFields (some s) ↔
      (f ∈ DEFAULT_LEAD_FIELDS ∧ ∃ name ∈ pySplit s ',', pyLower name = f) := by
  rw [parseIncludeFields, List.mem_filterMap]
  constructor
  · rintro ⟨name, hmem, hval⟩
    by_cases hg : pyLower name ∈ DEFAULT_LEAD_FIELDS
    · rw [if_pos hg, pyStrip_fixed _ hg] at hval
      obtain rfl := Option.some.inj hval
      exact ⟨hg, name, hmem, rfl⟩
    · rw [if_neg hg] at hval
      cases hval
  · rintro ⟨hfD, name, hmem, hlow⟩
    refine ⟨name, hmem, ?_⟩
    rw [if_pos (hlow ▸ hfD), hlow, pyStrip_fixed f hfD]

/-- The response leads are the page rows projected one-for-one. -/
theorem leads_getAllLeads (fts : TextSearch) (req : ListRequest)
    (db : List Row) :
    (getAllLeads fts req db).leads =
      (pageRows fts req db).map
        (leadOf (parseIncludeFields req.includeParam)
          (parseDropNull req.dropNullParam)) := rfl

/-- Keys of a projected lead with drop_null on: included fields whose
value is non-null. -/
theorem mem_keys_leadOf_true {f : String} (ks : List String) (r : Row) :
    f ∈ (leadOf ks true r).map Prod.fst ↔ (f ∈ ks ∧ rowGet r f ≠ JVal.null) := by
  rw [leadOf]
  simp only [if_pos]
  constructor
  · intro h
    obtain ⟨kv, hkv, rfl⟩ := List.mem_map.mp h
    obtain ⟨hps, hpred⟩ := List.mem_filter.mp hkv
    obtain ⟨hks, hval⟩ := (mem_pyDict_iff ks (rowGet r)).mp hps
    refine ⟨((mem_dictKeysAux kv.1 ks []).mp hks).1, ?_⟩
    rw [← hval]
    simpa using hpred
  · rintro ⟨hks, hval⟩
    refine List.mem_map.mpr ⟨(f, rowGet r f), List.mem_filter.mpr ⟨?_, ?_⟩, rfl⟩
    · exact (mem_pyDict_iff ks (rowGet r)).mpr
        ⟨(mem_dictKeysAux f ks []).mpr ⟨hks, List.not_mem_nil f⟩, rfl⟩
    · simpa using hval

/-- Keys of a projected lead with drop_null off: exactly the included
fields. -/
theorem mem_keys_leadOf_false {f : String} (ks : List String) (r : Row) :
    f ∈ (leadOf ks false r).map Prod.fst ↔ f ∈ ks := by
  rw [leadOf]
  simp only [Bool.false_eq_true, if_false]
  exact mem_keys_pyDict ks (rowGet r)

/-- Filtering the update body preserves key uniqueness of the JSON
dict. -/
theorem nodup_keys_modifyBody {json : List (String × JVal)}
    (h : (json.map Prod.fst).Nodup) :
    ((modifyBody json).map Prod.fst).Nodup :=
  h.sublist ((List.filter_sublist json).map Prod.fst)

/-- With at least one assignment and a matching row, the UPDATE returns
the updated row's projection and rewrites exactly the matching rows. -/
theorem modifyLeadWithId_eq_of_find {lid : Int} {json : List (String × JVal)}
    {db : List Row} {r : Row}
    (hfind : db.find? (fun x => x.id == lid) = some r)
    (hbody : modifyBody json ≠ []) :
    modifyLeadWithId lid json db =
      (UpdateResult.updated (projAll (applyUpdate r (modifyBody json))),
        db.map (fun x => if x.id == lid then applyUpdate x (modifyBody json)
          else x)) := by
  rw [modifyLeadWithId, if_neg, hfind]
  simp only [setClauseAssignments, ne_eq, List.map_eq_nil_iff]
  exact hbody

/-- A supplied column of the SET clause takes the supplied value. -/
theorem rowGet_applyUpdate_of_mem {json : List (String × JVal)} {f : String}
    {v : JVal} {r : Row} (hnodup : (json.map Prod.fst).Nodup)
    (hm : (f, v) ∈ modifyBody json) :
    rowGet (applyUpdate r (modifyBody json)) f = v := by
  have hpred := (List.mem_filter.mp hm).2
  simp only [Bool.and_eq_true, bne_iff_ne, ne_eq, decide_eq_true_eq] at hpred
  have hfid : ¬ f = "id" := hpred.1
  rw [rowGet, if_neg hfid, applyUpdate]
  simp only
  rw [lookupJ_eq_some_of_mem (nodup_keys_modifyBody hnodup) hm]
  rfl

/-- An unsupplied column keeps its prior value. -/
theorem rowGet_applyUpdate_of_not_mem {json : List (String × JVal)}
    {f : String} {r : Row} (hf : f ∉ (modifyBody json).map Prod.fst) :
    rowGet (applyUpdate r (modifyBody json)) f = rowGet r f := by
  by_cases hid : f = "id"
  · subst hid
    rw [rowGet, if_pos rfl, rowGet, if_pos rfl]
    rfl
  · rw [rowGet, if_neg hid, rowGet, if_neg hid, applyUpdate]
    simp only
    rw [lookupJ_eq_none_of_not_mem hf]
    rfl

/-- When the data_source guard fails (falsy value, or lowercased value in
the valid set), the create handler inserts and returns the full
projection of the new row. -/
theorem createNewLead_eq_of_cond_false {json : List (String × JVal)}
    {newId : Int} {db : List Row}
    (hcond : (((lookupJ (createBody json) "data_source").getD JVal.null).truthy &&
      !(decide (pyLower ((lookupJ (createBody json) "data_source").getD
        JVal.null).pyStr ∈ VALID_DATA_SOURCES))) = false) :
    createNewLead json newId db =
      (CreateResult.created (projAll (insertedRow newId (createBody json))),
        db ++ [insertedRow newId (createBody json)]) := by
  simp only [createNewLead]
  rw [if_neg (by simp [hcond])]

/-- When the data_source guard fires, the create handler returns the 422
payload and runs no SQL. -/
theorem createNewLead_eq_of_cond_true {json : List (String × JVal)}
    {newId : Int} {db : List Row}
    (hcond : (((lookupJ (createBody json) "data_source").getD JVal.null).truthy &&
      !(decide (pyLower ((lookupJ (createBody json) "data_source").getD
        JVal.null).pyStr ∈ VALID_DATA_SOURCES))) = true) :
    createNewLead json newId db =
      (CreateResult.invalid
        ("Invalid value for the \"data_source\" parameter: " ++
          pyLower ((lookupJ (createBody json) "data_source").getD
            JVal.null).pyStr), db) := by
  simp only [createNewLead]
  rw [if_pos hcond]

/-- The full projection binds data_source to the row's data_source
column. -/
theorem lookupJ_projAll_data_source (r : Row) :
    lookupJ (projAll r) "data_source" = some (rowGet r "data_source") := by
  rfl

/-- A non-id column of a freshly inserted row holds the supplied value,
or NULL when unsupplied. -/
theorem rowGet_insertedRow {i : Int} {b : List (String × JVal)} {f : String}
    (hf : ¬ f = "id") :
    rowGet (insertedRow i b) f = (lookupJ b f).getD JVal.null := by
  rw [rowGet, if_neg hf]
  rfl

/- ================= claim theorems ================= -/

/-- A concrete search collaborator for the C1 input: every company_name
matches the query, and "Best Co" ranks strictly above "Weak Co". -/
def demoFts : TextSearch :=
  { tsMatch := fun _ _ => true,
    tsRank := fun v _ => if v = JVal.str "Best Co" then 2 else 1 }

def c1Req : ListRequest :=
  { page := 1, perpage := 10, search := some "co",
    includeParam := some "id,company_name", dropNullParam := none }

def c1Db : List Row :=
  [mkRow 1 [("company_name", JVal.str "Best Co")],
   mkRow 2 [("company_name", JVal.str "Weak Co")]]

/-- Claim C1: the claim (and the spec) say a GET /leads search returns
leads ordered by full-text rank descending, higher-ranked matches first.
The code emits ORDER BY ts_rank(...) with no direction, which is
ascending: at this input the strictly higher-ranked "Best Co" is
returned after the lower-ranked "Weak Co", so the code puts the best
match last and contradicts the claimed order.  The claim matches the
evident intent of a relevance search; the missing DESC is a slip in the
code. -/
theorem c1_search_orders_rank_ascending :
    demoFts.tsRank (JVal.str "Best Co") "co" >
      demoFts.tsRank (JVal.str "Weak Co") "co" ∧
    (getAllLeads demoFts c1Req c1Db).leads =
      [[("id", JVal.int 2), ("company_name", JVal.str "Weak Co")],
       [("id", JVal.int 1), ("company_name", JVal.str "Best Co")]] := by
  decide

def c2Req : ListRequest :=
  { page := 1, perpage := 10, search := none,
    includeParam := some "id,company_name", dropNullParam := some "true" }

/-- Claim C2, counterexample: with include "id,company_name" and
drop_null "true" against a row whose company_name is NULL, the returned
object holds only the id key, although company_name is in the
intersection of the requested names with the fixed field set — so a
returned lead does not always contain exactly that intersection. -/
theorem c2_counterexample :
    ("company_name" ∈ DEFAULT_LEAD_FIELDS) ∧
    ("company_name" ∈ pySplit "id,company_name" ',') ∧
    (pyLower "company_name" = "company_name") ∧
    rowGet (mkRow 1 []) "company_name" = JVal.null ∧
    (getAllLeads noSearchFts c2Req [mkRow 1 []]).leads =
      [[("id", JVal.int 1)]] := by
  decide

/-- Claim C2 (amended): for every GET /leads request whose drop_null
parameter does not parse to true, each returned lead object contains
exactly the intersection of the comma-separated include names (matched
case-insensitively against the fixed field set, unknown names silently
dropped) with the fixed field set, and all 23 fixed fields when include
is omitted. -/
theorem c2_include_intersection (fts : TextSearch) (req : ListRequest)
    (db : List Row) (hdn : parseDropNull req.dropNullParam = false) :
    ∀ lead ∈ (getAllLeads fts req db).leads, ∀ f : String,
      f ∈ lead.map Prod.fst ↔
        (f ∈ DEFAULT_LEAD_FIELDS ∧
          ∀ s, req.includeParam = some s →
            ∃ name ∈ pySplit s ',', pyLower name = f) := by
  intro lead hlead f
  rw [leads_getAllLeads] at hlead
  obtain ⟨r, _hr, rfl⟩ := List.mem_map.mp hlead
  rw [hdn, mem_keys_leadOf_false]
  cases hinc : req.includeParam with
  | none =>
    exact ⟨fun h => ⟨h, fun _ hs => nomatch hs⟩, fun h => h.1⟩
  | some s =>
    rw [mem_parseIncludeFields_some]
    constructor
    · rintro ⟨hfD, name, hname, hlow⟩
      refine ⟨hfD, fun s' hs' => ?_⟩
      obtain rfl := Option.some.inj hs'
      exact ⟨name, hname, hlow⟩
    · rintro ⟨hfD, hall⟩
      obtain ⟨name, hname, hlow⟩ := hall s rfl
      exact ⟨hfD, name, hname, hlow⟩

def c2wReq : ListRequest :=
  { page := 1, perpage := 10, search := none,
    includeParam := some "ID,bogus", dropNullParam := none }

def c2wDb : List Row := [mkRow 1 []]

theorem c2_include_intersection_witness :
    "id" ∈ ((getAllLeads noSearchFts c2wReq c2wDb).leads.headD []).map
      Prod.fst :=
  (c2_include_intersection noSearchFts c2wReq c2wDb (by decide)
      ((getAllLeads noSearchFts c2wReq c2wDb).leads.headD [])
      (by decide) "id").mpr
    ⟨by decide, fun s hs => by
      obtain rfl := Option.some.inj hs
      exact ⟨"ID", by decide, by decide⟩⟩

def c3Json : List (String × JVal) :=
  [("company_name", JVal.str "Acme"), ("data_source", JVal.str "")]

/-- Claim C3, counterexample: a POST body with data_source the empty
string — a value whose case-insensitized form is not one of the three
valid sources — is not met with a 422: the falsy guard skips validation
and the INSERT runs, adding a row. -/
theorem c3_counterexample :
    pyLower (JVal.str "").pyStr ∉ VALID_DATA_SOURCES ∧
    (createNewLead c3Json 7 []).1.isInvalid = false ∧
    (createNewLead c3Json 7 []).2.length = 1 := by
  decide

/-- Claim C3 (amended): for every POST /leads request whose filtered body
carries a truthy data_source whose stringified lowercased form is not
one of the three valid data sources, the handler returns the 422 payload
and executes no INSERT — the table is unchanged. -/
theorem c3_invalid_data_source (json : List (String × JVal)) (newId : Int)
    (db : List Row)
    (htruthy : ((lookupJ (createBody json) "data_source").getD
      JVal.null).truthy = true)
    (hbad : pyLower ((lookupJ (createBody json) "data_source").getD
      JVal.null).pyStr ∉ VALID_DATA_SOURCES) :
    (createNewLead json newId db).1 =
      CreateResult.invalid
        ("Invalid value for the \"data_source\" parameter: " ++
          pyLower ((lookupJ (createBody json) "data_source").getD
            JVal.null).pyStr) ∧
    (createNewLead json newId db).2 = db := by
  have hcond :
      (((lookupJ (createBody json) "data_source").getD JVal.null).truthy &&
        !(decide (pyLower ((lookupJ (createBody json) "data_source").getD
          JVal.null).pyStr ∈ VALID_DATA_SOURCES))) = true := by
    rw [htruthy]
    simp [hbad]
  rw [createNewLead_eq_of_cond_true hcond]
  exact ⟨rfl, rfl⟩

def c3wJson : List (String × JVal) := [("data_source", JVal.str "BOGUS")]

theorem c3_invalid_data_source_witness :
    (createNewLead c3wJson 1 []).1 =
      CreateResult.invalid
        ("Invalid value for the \"data_source\" parameter: " ++
          pyLower ((lookupJ (createBody c3wJson) "data_source").getD
            JVal.null).pyStr) ∧
    (createNewLead c3wJson 1 []).2 = [] :=
  c3_invalid_data_source c3wJson 1 [] (by decide) (by decide)

/-- Claim C4: a PUT /leads/(id) whose body supplies a (non-empty) subset
of the fixed fields against an existing row changes exactly the supplied
fields: the response is the full fixed-field projection of the updated
row, every supplied field reads the supplied value, every other field
keeps its prior value, and rows with other ids are untouched. -/
theorem c4_partial_update (lid : Int) (json : List (String × JVal))
    (db : List Row) (r : Row)
    (hnodup : (json.map Prod.fst).Nodup)
    (hfind : db.find? (fun x => x.id == lid) = some r)
    (hbody : modifyBody json ≠ []) :
    (modifyLeadWithId lid json db).1 =
      UpdateResult.updated (projAll (applyUpdate r (modifyBody json))) ∧
    (∀ f v, (f, v) ∈ modifyBody json →
      rowGet (applyUpdate r (modifyBody json)) f = v) ∧
    (∀ f, f ∉ (modifyBody json).map Prod.fst →
      rowGet (applyUpdate r (modifyBody json)) f = rowGet r f) ∧
    (∀ x ∈ db, ¬ x.id = lid → x ∈ (modifyLeadWithId lid json db).2) := by
  rw [modifyLeadWithId_eq_of_find hfind hbody]
  refine ⟨rfl, fun f v hm => rowGet_applyUpdate_of_mem hnodup hm,
    fun f hf => rowGet_applyUpdate_of_not_mem hf, fun x hx hne => ?_⟩
  exact List.mem_map.mpr ⟨x, hx, if_neg (by simp [hne])⟩

def c4Json : List (String × JVal) := [("company_name", JVal.str "Acme")]

def c4Row : Row :=
  mkRow 1 [("company_name", JVal.str "Old Name"),
    ("phone", JVal.str "555-1234")]

def c4Db : List Row := [c4Row]

theorem c4_partial_update_witness :
    (modifyLeadWithId 1 c4Json c4Db).1 =
      UpdateResult.updated (projAll (applyUpdate c4Row (modifyBody c4Json))) ∧
    rowGet (applyUpdate c4Row (modifyBody c4Json)) "company_name" =
      JVal.str "Acme" ∧
    rowGet (applyUpdate c4Row (modifyBody c4Json)) "phone" =
      JVal.str "555-1234" :=
  ⟨(c4_partial_update 1 c4Json c4Db c4Row (by decide) rfl (by decide)).1,
   by
     rw [(c4_partial_update 1 c4Json c4Db c4Row (by decide) rfl
       (by decide)).2.1 "company_name" (JVal.str "Acme") (by decide)],
   by
     rw [(c4_partial_update 1 c4Json c4Db c4Row (by decide) rfl
       (by decide)).2.2.1 "phone" (by decide)]
     decide⟩

/-- Claim C5: a GET /leads without search and with validated page ≥ 1,
perpage ≥ 1 takes the table in ascending id order, skips
(page-1)*perpage rows, returns at most perpage leads, and reports count
equal to the number of leads in this page. -/
theorem c5_pagination (fts : TextSearch) (req : ListRequest) (db : List Row)
    (hs : req.search = none) (_hp : 1 ≤ req.page) (_hpp : 1 ≤ req.perpage) :
    (getAllLeads fts req db).leads =
      (((List.insertionSort idLe db).drop
          ((req.page - 1) * req.perpage)).take req.perpage).map
        (leadOf (parseIncludeFields req.includeParam)
          (parseDropNull req.dropNullParam)) ∧
    (getAllLeads fts req db).count = (getAllLeads fts req db).leads.length ∧
    (getAllLeads fts req db).leads.length ≤ req.perpage ∧
    List.Sorted idLe (List.insertionSort idLe db) ∧
    (List.insertionSort idLe db).Perm db := by
  refine ⟨?_, rfl, ?_, List.sorted_insertionSort idLe db,
    List.perm_insertionSort idLe db⟩
  · rw [leads_getAllLeads]
    simp only [pageRows, hs, listQueryRows]
  · rw [leads_getAllLeads]
    simp only [pageRows, hs, listQueryRows, List.length_map,
      List.length_take]
    exact min_le_left _ _

def c5Req : ListRequest :=
  { page := 2, perpage := 1, search := none, includeParam := none,
    dropNullParam := none }

def c5Db : List Row := [mkRow 2 [], mkRow 1 [], mkRow 3 []]

theorem c5_pagination_witness :
    (getAllLeads noSearchFts c5Req c5Db).leads =
      (((List.insertionSort idLe c5Db).drop
          ((c5Req.page - 1) * c5Req.perpage)).take c5Req.perpage).map
        (leadOf (parseIncludeFields c5Req.includeParam)
          (parseDropNull c5Req.dropNullParam)) ∧
    (getAllLeads noSearchFts c5Req c5Db).leads.length ≤ c5Req.perpage :=
  ⟨(c5_pagination noSearchFts c5Req c5Db rfl (by decide) (by decide)).1,
   (c5_pagination noSearchFts c5Req c5Db rfl (by decide) (by decide)).2.2.1⟩

def c6Row : Row := mkRow 1 [("company_name", JVal.str "Acme")]

def c6Req : ListRequest :=
  { page := 1, perpage := 10, search := none, includeParam := none,
    dropNullParam := some "TRUE" }

/-- Claim C6, counterexample: drop_null "TRUE" is a value other than
"true", for which the claim promises all included keys preserved; but
the code lowercases the parameter, so with include omitted only the two
non-null fields of the row survive out of the 23 included keys. -/
theorem c6_counterexample :
    c6Req.dropNullParam = some "TRUE" ∧
    "TRUE" ≠ "true" ∧
    rowGet c6Row "email" = JVal.null ∧
    (getAllLeads noSearchFts c6Req [c6Row]).leads =
      [[("id", JVal.int 1), ("company_name", JVal.str "Acme")]] := by
  decide

/-- Claim C6 (amended): when the drop_null parameter lowercases to
"true", every key whose value is null is removed from every returned
lead object; when it is absent or lowercases to anything else, all
included keys are preserved even if their values are null. -/
theorem c6_drop_null_projection (fts : TextSearch) (req : ListRequest)
    (db : List Row) (r : Row) (f : String)
    (hr : r ∈ pageRows fts req db) :
    leadOf (parseIncludeFields req.includeParam)
        (parseDropNull req.dropNullParam) r ∈ (getAllLeads fts req db).leads ∧
    (parseDropNull req.dropNullParam = true →
      (f ∈ (leadOf (parseIncludeFields req.includeParam) true r).map
          Prod.fst ↔
        (f ∈ parseIncludeFields req.includeParam ∧
          rowGet r f ≠ JVal.null))) ∧
    (parseDropNull req.dropNullParam = false →
      (f ∈ (leadOf (parseIncludeFields req.includeParam) false r).map
          Prod.fst ↔
        f ∈ parseIncludeFields req.includeParam)) := by
  refine ⟨?_, fun _ => mem_keys_leadOf_true _ _,
    fun _ => mem_keys_leadOf_false _ _⟩
  rw [leads_getAllLeads]
  exact List.mem_map_of_mem _ hr

theorem c6_drop_null_projection_witness :
    "email" ∈ (leadOf (parseIncludeFields c6Req.includeParam) true
        c6Row).map Prod.fst ↔
      ("email" ∈ parseIncludeFields c6Req.includeParam ∧
        rowGet c6Row "email" ≠ JVal.null) :=
  (c6_drop_null_projection noSearchFts c6Req [c6Row] c6Row "email"
    (List.mem_singleton.mpr rfl)).2.1 (by decide)

/-- Claim C7: for an id with no matching row, GET returns 404 with
params.id and a message, PUT (with a non-empty update body — an empty
body dies in the C8 SQL defect before reaching the 404) returns 404
echoing the submitted body, and DELETE returns 404; none of them touch
the table. -/
theorem c7_not_found (lid : Int) (json : List (String × JVal))
    (db : List Row)
    (habsent : ∀ x ∈ db, ¬ x.id = lid)
    (hbody : modifyBody json ≠ []) :
    getLeadById lid db =
      FetchResult.notFound lid "Could not find lead with given id." ∧
    (modifyLeadWithId lid json db).1 =
      UpdateResult.notFound lid json "Could not find lead with given id." ∧
    (modifyLeadWithId lid json db).2 = db ∧
    (deleteLeadWithId lid db).1 =
      FetchResult.notFound lid "Could not find lead with given id." ∧
    (deleteLeadWithId lid db).2 = db := by
  have hfind : db.find? (fun x => x.id == lid) = none :=
    List.find?_eq_none.mpr (fun x hx => by simp [habsent x hx])
  have hup : modifyLeadWithId lid json db =
      (UpdateResult.notFound lid json "Could not find lead with given id.",
        db) := by
    rw [modifyLeadWithId, if_neg, hfind]
    simp only [setClauseAssignments, ne_eq, List.map_eq_nil_iff]
    exact hbody
  refine ⟨?_, by rw [hup], by rw [hup], ?_, ?_⟩
  · rw [getLeadById, hfind]
  · rw [deleteLeadWithId, hfind]
  · rw [deleteLeadWithId, hfind]

def c7Json : List (String × JVal) := [("company_name", JVal.str "Acme")]

theorem c7_not_found_witness :
    getLeadById 999999 [] =
      FetchResult.notFound 999999 "Could not find lead with given id." ∧
    (modifyLeadWithId 999999 c7Json []).1 =
      UpdateResult.notFound 999999 c7Json
        "Could not find lead with given id." ∧
    (modifyLeadWithId 999999 c7Json []).2 = [] ∧
    (deleteLeadWithId 999999 []).1 =
      FetchResult.notFound 999999 "Could not find lead with given id." ∧
    (deleteLeadWithId 999999 []).2 = [] :=
  c7_not_found 999999 c7Json [] (by simp) (by decide)

/-- Claim C8: a PUT /leads/(id) whose body holds no fixed field besides
id produces an UPDATE whose SET clause is the empty string — a
syntactically invalid statement — so the update does not complete
normally: the transaction rolls back and the table is unchanged. -/
theorem c8_empty_set_clause (lid : Int) (json : List (String × JVal))
    (db : List Row) (hempty : modifyBody json = []) :
    setClauseAssignments (modifyBody json) = [] ∧
    setClause (modifyBody json) = "" ∧
    modifyLeadWithId lid json db = (UpdateResult.sqlError, db) := by
  refine ⟨by rw [hempty]; rfl, by rw [hempty]; rfl, ?_⟩
  simp only [modifyLeadWithId, hempty]
  exact if_pos (by rfl)

def c8Json : List (String × JVal) :=
  [("id", JVal.int 5), ("unknown_field", JVal.str "x")]

theorem c8_empty_set_clause_witness :
    setClauseAssignments (modifyBody c8Json) = [] ∧
    setClause (modifyBody c8Json) = "" ∧
    modifyLeadWithId 3 c8Json [] = (UpdateResult.sqlError, []) :=
  c8_empty_set_clause 3 c8Json [] (by decide)

/-- Claim C9: the data_source validation runs on a lowercased copy while
the INSERT uses the caller's original string — a mixed-case value whose
lowercase is valid passes validation and is stored and returned
un-normalized — and a falsy data_source (the empty string, not a valid
source) skips validation entirely and is inserted. -/
theorem c9_data_source_case_handling :
    (pyLower "" ∉ VALID_DATA_SOURCES) ∧
    (∀ (json : List (String × JVal)) (newId : Int) (db : List Row)
        (s : String),
      lookupJ (createBody json) "data_source" = some (JVal.str s) →
      ¬ s = "" → pyLower s ∈ VALID_DATA_SOURCES →
      ((createNewLead json newId db).1 =
          CreateResult.created
            (projAll (insertedRow newId (createBody json))) ∧
        lookupJ (projAll (insertedRow newId (createBody json)))
            "data_source" = some (JVal.str s) ∧
        (createNewLead json newId db).2 =
          db ++ [insertedRow newId (createBody json)])) ∧
    (∀ (json : List (String × JVal)) (newId : Int) (db : List Row),
      lookupJ (createBody json) "data_source" = some (JVal.str "") →
      ((createNewLead json newId db).1.isInvalid = false ∧
        (createNewLead json newId db).2.length = db.length + 1)) := by
  refine ⟨by decide, ?_, ?_⟩
  · intro json newId db s hds hne hvalid
    have hcond :
        (((lookupJ (createBody json) "data_source").getD JVal.null).truthy &&
          !(decide (pyLower ((lookupJ (createBody json) "data_source").getD
            JVal.null).pyStr ∈ VALID_DATA_SOURCES))) = false := by
      rw [hds]
      simp only [Option.getD_some, JVal.truthy, JVal.pyStr]
      simp [hvalid]
    rw [createNewLead_eq_of_cond_false hcond]
    refine ⟨rfl, ?_, rfl⟩
    rw [lookupJ_projAll_data_source, rowGet_insertedRow (by decide), hds]
    rfl
  · intro json newId db hds
    have hcond :
        (((lookupJ (createBody json) "data_source").getD JVal.null).truthy &&
          !(decide (pyLower ((lookupJ (createBody json) "data_source").getD
            JVal.null).pyStr ∈ VALID_DATA_SOURCES))) = false := by
      rw [hds]
      rfl
    rw [createNewLead_eq_of_cond_false hcond]
    exact ⟨rfl, by simp⟩

def c9Json : List (String × JVal) := [("data_source", JVal.str "USER_ENTRY")]

def c9JsonF : List (String × JVal) :=
  [("data_source", JVal.str ""), ("company_name", JVal.str "Acme")]

theorem c9_data_source_case_handling_witness :
    ((createNewLead c9Json 3 []).1 =
        CreateResult.created (projAll (insertedRow 3 (createBody c9Json))) ∧
      lookupJ (projAll (insertedRow 3 (createBody c9Json))) "data_source" =
        some (JVal.str "USER_ENTRY") ∧
      (createNewLead c9Json 3 []).2 =
        [] ++ [insertedRow 3 (createBody c9Json)]) ∧
    ((createNewLead c9JsonF 4 []).1.isInvalid = false ∧
      (createNewLead c9JsonF 4 []).2.length =
        ([] : List Row).length + 1) :=
  ⟨c9_data_source_case_handling.2.1 c9Json 3 [] "USER_ENTRY" (by decide)
      (by decide) (by decide),
   c9_data_source_case_handling.2.2 c9JsonF 4 [] (by decide)⟩

/-- Claim C10: POST drops null-valued body entries before the INSERT,
while PUT keeps them, so a PUT body pairing a fixed field with null sets
that column to NULL in the updated row. -/
theorem c10_null_value_handling (json : List (String × JVal)) (f : String)
    (lid : Int) (db : List Row) (r : Row)
    (hnodup : (json.map Prod.fst).Nodup)
    (hmem : (f, JVal.null) ∈ json)
    (hf : f ∈ DEFAULT_LEAD_FIELDS) (hfid : ¬ f = "id")
    (hfind : db.find? (fun x => x.id == lid) = some r) :
    ((f, JVal.null) ∉ createBody json) ∧
    ((f, JVal.null) ∈ modifyBody json) ∧
    rowGet (applyUpdate r (modifyBody json)) f = JVal.null ∧
    (modifyLeadWithId lid json db).1 =
      UpdateResult.updated (projAll (applyUpdate r (modifyBody json))) := by
  have hin : (f, JVal.null) ∈ modifyBody json :=
    List.mem_filter.mpr ⟨hmem, by
      simp only [Bool.and_eq_true, bne_iff_ne, ne_eq, decide_eq_true_eq]
      exact ⟨hfid, hf⟩⟩
  have hbody : modifyBody json ≠ [] := List.ne_nil_of_mem hin
  refine ⟨?_, hin, rowGet_applyUpdate_of_mem hnodup hin, ?_⟩
  · intro hcontra
    have hpred := (List.mem_filter.mp hcontra).2
    simp at hpred
  · rw [modifyLeadWithId_eq_of_find hfind hbody]

def c10Json : List (String × JVal) :=
  [("phone", JVal.null), ("company_name", JVal.str "Acme")]

def c10Row : Row := mkRow 1 [("phone", JVal.str "555-1234")]

def c10Db : List Row := [c10Row]

theorem c10_null_value_handling_witness :
    (("phone", JVal.null) ∉ createBody c10Json) ∧
    (("phone", JVal.null) ∈ modifyBody c10Json) ∧
    rowGet (applyUpdate c10Row (modifyBody c10Json)) "phone" = JVal.null ∧
    (modifyLeadWithId 1 c10Json c10Db).1 =
      UpdateResult.updated (projAll (applyUpdate c10Row (modifyBody c10Json))) :=
  c10_null_value_handling c10Json "phone" 1 c10Db c10Row (by decide)
    (by decide) (by decide) (by decide) rfl

end LeadsApi
